import Mathlib

/- Verification of the rizzo trading agent core: the decision sanitizer and
provider-fallback logic of `trading_agent.py`, and the snapshot builder of
`indicators.py`, shallowly embedded in Lean.  Numeric values are modelled as
rationals, Python dictionaries as records, and raising code as `Except`. -/

/-- A parsed provider response, as handled by `_sanitize_response` in
`trading_agent.py`.  `operation`/`symbol` are `none` when the key is absent
(Python `dict.get` returns `None`); `direction` distinguishes an absent key
(`none`), an explicit JSON `null` (`some none`) and a string value
(`some (some s)`).  The numeric fields and `reason` are carried along
untouched, as the Python function never reads them. -/
structure RawResp where
  operation : Option String
  symbol : Option String
  direction : Option (Option String)
  target_portion_of_balance : ℚ
  leverage : ℚ
  reason : String
deriving DecidableEq, Repr

/-- The direction-defaulting step of `_sanitize_response`
(`trading_agent.py` lines 76-85): an absent direction becomes `null` for
`hold` and `"long"` otherwise; an explicit `null` direction becomes
`"long"` whenever the operation is not `hold`. -/
def ensureDirection (r : RawResp) : RawResp :=
  match r.direction with
  | none =>
      if r.operation = some "hold" then { r with direction := some none }
      else { r with direction := some (some "long") }
  | some none =>
      if r.operation ≠ some "hold" then { r with direction := some (some "long") }
      else r
  | some (some _) => r

/-- The `ValueError`s `_sanitize_response` can raise. -/
inductive SanitizeError
  | invalidOperation (op : Option String)
  | invalidSymbol (sym : Option String)
deriving DecidableEq, Repr

/-- The operations accepted by `_sanitize_response` (line 88). -/
def validOperations : List (Option String) := [some "open", some "close", some "hold"]

/-- The symbols accepted by `_sanitize_response` (line 92). -/
def validSymbols : List (Option String) := [some "BTC", some "ETH", some "SOL"]

/-- `_sanitize_response` from `trading_agent.py` (lines 69-95).  The first
component of the result is the final state of the caller's mapping (the
Python function mutates its argument in place); the second is the returned
decision, or the raised `ValueError`. -/
def sanitize_response (r : RawResp) : RawResp × Except SanitizeError RawResp :=
  let r1 := ensureDirection r
  if r1.operation ∉ validOperations then
    (r1, Except.error (SanitizeError.invalidOperation r1.operation))
  else if r1.symbol ∉ validSymbols then
    (r1, Except.error (SanitizeError.invalidSymbol r1.symbol))
  else
    (r1, Except.ok r1)

theorem ensureDirection_operation (r : RawResp) :
    (ensureDirection r).operation = r.operation := by
  unfold ensureDirection
  rcases r.direction with _ | _ | d <;> simp <;> split <;> rfl

theorem ensureDirection_symbol (r : RawResp) :
    (ensureDirection r).symbol = r.symbol := by
  unfold ensureDirection
  rcases r.direction with _ | _ | d <;> simp <;> split <;> rfl

theorem ensureDirection_tpb (r : RawResp) :
    (ensureDirection r).target_portion_of_balance = r.target_portion_of_balance := by
  unfold ensureDirection
  rcases r.direction with _ | _ | d <;> simp <;> split <;> rfl

theorem ensureDirection_leverage (r : RawResp) :
    (ensureDirection r).leverage = r.leverage := by
  unfold ensureDirection
  rcases r.direction with _ | _ | d <;> simp <;> split <;> rfl

theorem ensureDirection_reason (r : RawResp) :
    (ensureDirection r).reason = r.reason := by
  unfold ensureDirection
  rcases r.direction with _ | _ | d <;> simp <;> split <;> rfl

theorem sanitize_response_ok (r : RawResp)
    (hop : r.operation ∈ validOperations) (hsym : r.symbol ∈ validSymbols) :
    sanitize_response r = (ensureDirection r, Except.ok (ensureDirection r)) := by
  unfold sanitize_response
  rw [if_neg, if_neg]
  · rw [ensureDirection_symbol]; simpa using hsym
  · rw [ensureDirection_operation]; simpa using hop

/-- The concrete response of the spec's example for C1:
`target_portion_of_balance = 1.5` with an otherwise well-formed `open`
decision. -/
def rawTpb15 : RawResp :=
  { operation := some "open"
    symbol := some "ETH"
    direction := some (some "long")
    target_portion_of_balance := 3/2
    leverage := 5
    reason := "bullish breakout" }

/-- C1 counterexample: the sanitizer does not raise on
`target_portion_of_balance = 1.5`; it returns the decision unchanged, with
the out-of-range field still present.  (The claim says it raises
`InvalidDecision` and never returns an out-of-range decision.) -/
theorem C1_sanitizer_no_range_check_counterexample :
    1 < rawTpb15.target_portion_of_balance ∧
    (sanitize_response rawTpb15).2 = Except.ok rawTpb15 := by
  constructor
  · show (1:ℚ) < 3/2
    norm_num
  · rfl

/-- C1 amended: the sanitizer validates only `operation` and `symbol`; it
performs no range check at all on `target_portion_of_balance` or
`leverage` — any value of those fields, in range or not, is returned
unchanged (neither clamping nor rejection). -/
theorem C1_sanitizer_no_range_check (r : RawResp)
    (hop : r.operation ∈ validOperations) (hsym : r.symbol ∈ validSymbols) :
    ∃ d : RawResp, (sanitize_response r).2 = Except.ok d ∧
      d.target_portion_of_balance = r.target_portion_of_balance ∧
      d.leverage = r.leverage := by
  refine ⟨ensureDirection r, ?_, ensureDirection_tpb r, ensureDirection_leverage r⟩
  rw [sanitize_response_ok r hop hsym]

theorem C1_sanitizer_no_range_check_witness :
    rawTpb15.operation ∈ validOperations ∧ rawTpb15.symbol ∈ validSymbols ∧
    ∃ d : RawResp, (sanitize_response rawTpb15).2 = Except.ok d ∧
      d.target_portion_of_balance = rawTpb15.target_portion_of_balance ∧
      d.leverage = rawTpb15.leverage :=
  ⟨by simp [rawTpb15, validOperations], by simp [rawTpb15, validSymbols],
    C1_sanitizer_no_range_check rawTpb15 (by simp [rawTpb15, validOperations])
      (by simp [rawTpb15, validSymbols])⟩

/-- C2: for a response whose `direction` is absent or explicitly null and
whose `symbol` is valid: operation `hold` yields a decision with a null
direction and no error; operations `open`/`close` yield a decision with
`direction = "long"` (the default-inference rule). -/
theorem C2_direction_default (r : RawResp)
    (hd : r.direction = none ∨ r.direction = some none)
    (hsym : r.symbol ∈ validSymbols) :
    (r.operation = some "hold" →
      (sanitize_response r).2 = Except.ok { r with direction := some none }) ∧
    ((r.operation = some "open" ∨ r.operation = some "close") →
      (sanitize_response r).2 = Except.ok { r with direction := some (some "long") }) := by
  constructor
  · intro hop
    have h1 : ensureDirection r = { r with direction := some none } := by
      unfold ensureDirection
      rcases hd with hd | hd
      · rw [hd]; simp [hop]
      · rw [hd]; simp [hop]
        cases r
        simp_all
    rw [sanitize_response_ok r (by rw [hop]; simp [validOperations]) hsym, h1]
  · intro hop
    have hne : r.operation ≠ some "hold" := by
      rcases hop with hop | hop <;> rw [hop] <;> simp
    have h1 : ensureDirection r = { r with direction := some (some "long") } := by
      unfold ensureDirection
      rcases hd with hd | hd <;> rw [hd] <;> simp [hne]
    have hmem : r.operation ∈ validOperations := by
      rcases hop with hop | hop <;> rw [hop] <;> simp [validOperations]
    rw [sanitize_response_ok r hmem hsym, h1]

/-- The spec's `hold` example with `direction` absent. -/
def rawHoldEx : RawResp :=
  { operation := some "hold"
    symbol := some "BTC"
    direction := none
    target_portion_of_balance := 0
    leverage := 1
    reason := "no signal" }

/-- The spec's `open` example with `direction` absent. -/
def rawOpenEx : RawResp :=
  { operation := some "open"
    symbol := some "ETH"
    direction := none
    target_portion_of_balance := 1/2
    leverage := 5
    reason := "bullish breakout" }

theorem C2_direction_default_witness :
    (rawHoldEx.direction = none ∨ rawHoldEx.direction = some none) ∧
    rawHoldEx.symbol ∈ validSymbols ∧
    (sanitize_response rawHoldEx).2 = Except.ok { rawHoldEx with direction := some none } ∧
    (sanitize_response rawOpenEx).2 =
      Except.ok { rawOpenEx with direction := some (some "long") } :=
  ⟨Or.inl rfl, by simp [rawHoldEx, validSymbols],
    (C2_direction_default rawHoldEx (Or.inl rfl)
      (by simp [rawHoldEx, validSymbols])).1 rfl,
    (C2_direction_default rawOpenEx (Or.inl rfl)
      (by simp [rawOpenEx, validSymbols])).2 (Or.inl rfl)⟩

/-- C10: the sanitizer mutates the caller's mapping in place.  The final
state of the mapping differs from the input at most in `direction`; an
absent `direction` always becomes present (null or `"long"`) before any
validation runs, so on invalid `operation`/`symbol` the mapping is changed
even though an error is raised; and a successful call returns exactly the
mutated mapping itself. -/
theorem C10_sanitizer_mutates_in_place (r : RawResp) :
    ((sanitize_response r).1.operation = r.operation ∧
     (sanitize_response r).1.symbol = r.symbol ∧
     (sanitize_response r).1.target_portion_of_balance = r.target_portion_of_balance ∧
     (sanitize_response r).1.leverage = r.leverage ∧
     (sanitize_response r).1.reason = r.reason) ∧
    (r.direction = none → (sanitize_response r).1.direction ≠ none) ∧
    ((sanitize_response r).2.isOk = false ↔
      (r.operation ∉ validOperations ∨ r.symbol ∉ validSymbols)) ∧
    (∀ d, (sanitize_response r).2 = Except.ok d → d = (sanitize_response r).1) := by
  have hfst : (sanitize_response r).1 = ensureDirection r := by
    simp only [sanitize_response]
    split
    · rfl
    · split <;> rfl
  refine ⟨?_, ?_, ?_, ?_⟩
  · rw [hfst]
    exact ⟨ensureDirection_operation r, ensureDirection_symbol r, ensureDirection_tpb r,
      ensureDirection_leverage r, ensureDirection_reason r⟩
  · intro hd
    rw [hfst]
    unfold ensureDirection
    rw [hd]
    dsimp only
    split <;> simp
  · simp only [sanitize_response]
    rw [ensureDirection_operation, ensureDirection_symbol]
    split
    · simp_all [Except.isOk, Except.toBool]
    · split <;> simp_all [Except.isOk, Except.toBool]
  · intro d hd
    rw [hfst]
    simp only [sanitize_response] at hd
    rw [ensureDirection_operation, ensureDirection_symbol] at hd
    split at hd
    · simp at hd
    · split at hd
      · simp at hd
      · simpa using hd.symm

/-- A response with `direction` absent and an invalid symbol, to witness the
write-then-raise behaviour. -/
def rawBadSym : RawResp :=
  { operation := some "open"
    symbol := some "DOGE"
    direction := none
    target_portion_of_balance := 1/2
    leverage := 2
    reason := "x" }

theorem C10_sanitizer_mutates_in_place_witness :
    (sanitize_response rawBadSym).1.direction ≠ none ∧
    (sanitize_response rawBadSym).2.isOk = false :=
  ⟨(C10_sanitizer_mutates_in_place rawBadSym).2.1 rfl,
    ((C10_sanitizer_mutates_in_place rawBadSym).2.2.1).2
      (Or.inr (by simp [rawBadSym, validSymbols]))⟩

/-- The five classic pivot levels, as returned by
`calculate_pivot_points` in `indicators.py`. -/
structure PivotLevels where
  pp : ℚ
  s1 : ℚ
  s2 : ℚ
  r1 : ℚ
  r2 : ℚ
deriving DecidableEq, Repr

/-- `calculate_pivot_points` from `indicators.py` (lines 59-88). -/
def calculate_pivot_points (high low close : ℚ) : PivotLevels :=
  let pp := (high + low + close) / 3
  { pp := pp
    s1 := 2 * pp - high
    s2 := pp - (high - low)
    r1 := 2 * pp - low
    r2 := pp + (high - low) }

/-- C5 counterexample: on the flat candle `high = low = close = 100` —
a valid triple, since `low ≤ close ≤ high` — the strict inequality
`s1 < pp` fails: all five levels coincide. -/
theorem C5_pivot_order_counterexample :
    (100:ℚ) ≤ 100 ∧ (100:ℚ) ≤ 100 ∧
    (calculate_pivot_points 100 100 100).s1 = (calculate_pivot_points 100 100 100).pp ∧
    ¬ (calculate_pivot_points 100 100 100).s1 < (calculate_pivot_points 100 100 100).pp := by
  refine ⟨le_refl _, le_refl _, ?_, ?_⟩ <;> simp [calculate_pivot_points] <;> norm_num

/-- C5 amended: for every triple with `low ≤ close ≤ high`, the computation
returns exactly `pp = (high+low+close)/3`, `s1 = 2·pp − high`,
`s2 = pp − (high − low)`, `r1 = 2·pp − low`, `r2 = pp + (high − low)`, and
these satisfy `s2 ≤ s1 ≤ pp ≤ r1 ≤ r2`; when moreover `low < high`
(a non-degenerate candle) the middle inequalities are strict:
`s1 < pp < r1`. -/
theorem C5_pivot_order (high low close : ℚ)
    (h1 : low ≤ close) (h2 : close ≤ high) :
    (calculate_pivot_points high low close).pp = (high + low + close) / 3 ∧
    (calculate_pivot_points high low close).s1 =
      2 * (calculate_pivot_points high low close).pp - high ∧
    (calculate_pivot_points high low close).s2 =
      (calculate_pivot_points high low close).pp - (high - low) ∧
    (calculate_pivot_points high low close).r1 =
      2 * (calculate_pivot_points high low close).pp - low ∧
    (calculate_pivot_points high low close).r2 =
      (calculate_pivot_points high low close).pp + (high - low) ∧
    (calculate_pivot_points high low close).s2 ≤ (calculate_pivot_points high low close).s1 ∧
    (calculate_pivot_points high low close).s1 ≤ (calculate_pivot_points high low close).pp ∧
    (calculate_pivot_points high low close).pp ≤ (calculate_pivot_points high low close).r1 ∧
    (calculate_pivot_points high low close).r1 ≤ (calculate_pivot_points high low close).r2 ∧
    (low < high →
      (calculate_pivot_points high low close).s1 < (calculate_pivot_points high low close).pp ∧
      (calculate_pivot_points high low close).pp < (calculate_pivot_points high low close).r1) := by
  refine ⟨rfl, rfl, rfl, rfl, rfl, ?_, ?_, ?_, ?_, fun h3 => ⟨?_, ?_⟩⟩ <;>
    simp only [calculate_pivot_points] <;> linarith

theorem C5_pivot_order_witness :
    (90:ℚ) ≤ 100 ∧ (100:ℚ) ≤ 110 ∧
    ((calculate_pivot_points 110 90 100).pp = (110 + 90 + 100) / 3 ∧
     (calculate_pivot_points 110 90 100).s1 =
       2 * (calculate_pivot_points 110 90 100).pp - 110 ∧
     (calculate_pivot_points 110 90 100).s2 =
       (calculate_pivot_points 110 90 100).pp - (110 - 90) ∧
     (calculate_pivot_points 110 90 100).r1 =
       2 * (calculate_pivot_points 110 90 100).pp - 90 ∧
     (calculate_pivot_points 110 90 100).r2 =
       (calculate_pivot_points 110 90 100).pp + (110 - 90) ∧
     (calculate_pivot_points 110 90 100).s2 ≤ (calculate_pivot_points 110 90 100).s1 ∧
     (calculate_pivot_points 110 90 100).s1 ≤ (calculate_pivot_points 110 90 100).pp ∧
     (calculate_pivot_points 110 90 100).pp ≤ (calculate_pivot_points 110 90 100).r1 ∧
     (calculate_pivot_points 110 90 100).r1 ≤ (calculate_pivot_points 110 90 100).r2 ∧
     ((90:ℚ) < 110 →
       (calculate_pivot_points 110 90 100).s1 < (calculate_pivot_points 110 90 100).pp ∧
       (calculate_pivot_points 110 90 100).pp < (calculate_pivot_points 110 90 100).r1)) :=
  ⟨by norm_num, by norm_num, C5_pivot_order 110 90 100 (by norm_num) (by norm_num)⟩

/-- One OHLCV bar, keeping the fields `get_complete_analysis` reads. -/
structure Bar where
  high : ℚ
  low : ℚ
  close : ℚ
  volume : ℚ
deriving DecidableEq, Repr

/-- Arithmetic mean, as `numpy.mean` / pandas `.mean()` (0 on the empty
list, by rational division by zero; the code never takes a mean of an
empty collection). -/
def listMean (l : List ℚ) : ℚ := l.sum / l.length

/-- pandas `DataFrame.tail(n)` / `Series.tail(n)`: the last
`min n (length)` rows, in their original order. -/
def tailN (n : Nat) (l : List α) : List α := l.drop (l.length - n)

/-- The collaborator outcomes one run of `get_complete_analysis` observes:
each fetch is `none` when the underlying exchange call raises.  The
indicator columns are the aligned series the indicator engine returns for
the corresponding candle series (`ta` always returns a series of the same
length as its input); `oi_history` holds the `openInterestValue` of each
history entry. -/
structure AnalysisEnv where
  ohlcv_1m : Option (List Bar)
  ema20_1m : List ℚ
  macd_1m : List ℚ
  rsi7_1m : List ℚ
  rsi14_1m : List ℚ
  ohlcv_4h : Option (List Bar)
  macd_4h : List ℚ
  rsi14_4h : List ℚ
  ohlcv_1d : Option (List Bar)
  funding : Option ℚ
  oi_history : Option (List ℚ)

/-- `get_funding_rate` from `indicators.py` (lines 90-105): the returned
rate together with whether the warning branch ran (the `except` printing
the error and returning `0.0`). -/
def get_funding_rate (env : AnalysisEnv) : ℚ × Bool :=
  match env.funding with
  | some f => (f, false)
  | none => (0, true)

/-- `get_open_interest` from `indicators.py` (lines 107-128): latest and
average open interest, together with whether the warning branch ran.  An
empty (falsy) history falls through to the `{0.0, 0.0}` default without a
warning; a raising collaborator warns and defaults. -/
def get_open_interest (env : AnalysisEnv) : (ℚ × ℚ) × Bool :=
  match env.oi_history with
  | some hist =>
      match hist.getLast? with
      | some latest => ((latest, listMean hist), false)
      | none => ((0, 0), false)
  | none => ((0, 0), true)

/-- The exceptions that can escape `get_complete_analysis`: a raising
candle fetch (the three timeframes are not wrapped in `try`), or an
out-of-bounds `iloc` access. -/
inductive BuildError
  | fetch1m
  | fetch4h
  | fetch1d
  | indexError
deriving DecidableEq, Repr

/-- The fields of the analysis dictionary built by `get_complete_analysis`
that the spec's claims are about (`current` keeps its price entry; the
other latest-indicator entries of `current`/`longer_term_4h` are scalar
copies of column ends and are omitted). -/
structure MarketSnapshot where
  current_price : ℚ
  pivot_points : PivotLevels
  open_interest_latest : ℚ
  open_interest_average : ℚ
  funding_rate : ℚ
  mid_prices : List ℚ
  intraday_ema_20 : List ℚ
  intraday_macd : List ℚ
  intraday_rsi_7 : List ℚ
  intraday_rsi_14 : List ℚ
  volume_average : ℚ
  macd_series_4h : List ℚ
  rsi_14_series_4h : List ℚ
deriving DecidableEq, Repr

/-- The pivot-source selection of `get_complete_analysis` (lines 171-188):
with at least two daily bars, the completed prior day (`iloc[-2]`) is used;
otherwise the latest 4h bar (`iloc[-1]`, an `IndexError` if that series is
empty). -/
def pivot_source (df_daily df_4h : List Bar) : Except BuildError PivotLevels :=
  if 2 ≤ df_daily.length then
    match df_daily[df_daily.length - 2]? with
    | some prev_day =>
        Except.ok (calculate_pivot_points prev_day.high prev_day.low prev_day.close)
    | none => Except.error BuildError.indexError
  else
    match df_4h.getLast? with
    | some b => Except.ok (calculate_pivot_points b.high b.low b.close)
    | none => Except.error BuildError.indexError

/-- `get_complete_analysis` from `indicators.py` (lines 130-243), with the
collaborator outcomes supplied by `env` and effects sequenced in source
order: 1m fetch, 4h fetch, daily fetch, pivot derivation, open interest,
funding rate, and the final `iloc[-1]` row reads. -/
def get_complete_analysis (env : AnalysisEnv) : Except BuildError MarketSnapshot :=
  match env.ohlcv_1m with
  | none => Except.error BuildError.fetch1m
  | some df_1m =>
    match env.ohlcv_4h with
    | none => Except.error BuildError.fetch4h
    | some df_4h =>
      match env.ohlcv_1d with
      | none => Except.error BuildError.fetch1d
      | some df_daily =>
        match pivot_source df_daily df_4h with
        | Except.error e => Except.error e
        | Except.ok pivot_points =>
          let oi_data := get_open_interest env
          let funding_rate := (get_funding_rate env).1
          match df_1m.getLast? with
          | none => Except.error BuildError.indexError
          | some current_data =>
            match df_4h.getLast? with
            | none => Except.error BuildError.indexError
            | some _current_4h =>
              Except.ok
                { current_price := current_data.close
                  pivot_points := pivot_points
                  open_interest_latest := oi_data.1.1
                  open_interest_average := oi_data.1.2
                  funding_rate := funding_rate
                  mid_prices := tailN 10 (df_1m.map Bar.close)
                  intraday_ema_20 := tailN 10 env.ema20_1m
                  intraday_macd := tailN 10 env.macd_1m
                  intraday_rsi_7 := tailN 10 env.rsi7_1m
                  intraday_rsi_14 := tailN 10 env.rsi14_1m
                  volume_average := listMean (tailN 20 (df_4h.map Bar.volume))
                  macd_series_4h := tailN 10 env.macd_4h
                  rsi_14_series_4h := tailN 10 env.rsi14_4h }

theorem tailN_length (n : Nat) (l : List α) : (tailN n l).length = min n l.length := by
  simp only [tailN, List.length_drop]
  omega

theorem tailN_suffix (n : Nat) (l : List α) : tailN n l <:+ l :=
  List.drop_suffix _ _

theorem getLast_exists {α : Type} {l : List α} (h : l ≠ []) : ∃ b, l.getLast? = some b :=
  Option.isSome_iff_exists.mp (List.getLast?_isSome.mpr h)

theorem pivot_source_of_two (ld l4 : List Bar) (h2 : 2 ≤ ld.length) (b : Bar)
    (hb : ld[ld.length - 2]? = some b) :
    pivot_source ld l4 = Except.ok (calculate_pivot_points b.high b.low b.close) := by
  rw [pivot_source, if_pos h2, hb]

theorem pivot_source_of_lt_two (ld l4 : List Bar) (h2 : ld.length < 2) (b : Bar)
    (hb : l4.getLast? = some b) :
    pivot_source ld l4 = Except.ok (calculate_pivot_points b.high b.low b.close) := by
  rw [pivot_source, if_neg (by omega), hb]

theorem pivot_source_exists (ld l4 : List Bar) (h4ne : l4 ≠ []) :
    ∃ P, pivot_source ld l4 = Except.ok P := by
  by_cases h2 : 2 ≤ ld.length
  · have hlt : ld.length - 2 < ld.length := by omega
    exact ⟨_, pivot_source_of_two ld l4 h2 _ (List.getElem?_eq_getElem hlt)⟩
  · obtain ⟨b, hb⟩ := getLast_exists h4ne
    exact ⟨_, pivot_source_of_lt_two ld l4 (by omega) b hb⟩

/-- Normal form of a successful run: with all three candle fetches
succeeding on nonempty series and the pivot source resolved, the builder
returns the assembled snapshot, whatever the derivative outcomes. -/
theorem get_complete_analysis_ok (env : AnalysisEnv) (l1 l4 ld : List Bar)
    (b1 b4 : Bar) (P : PivotLevels)
    (h1 : env.ohlcv_1m = some l1) (hb1 : l1.getLast? = some b1)
    (h4 : env.ohlcv_4h = some l4) (hb4 : l4.getLast? = some b4)
    (hd : env.ohlcv_1d = some ld) (hP : pivot_source ld l4 = Except.ok P) :
    get_complete_analysis env = Except.ok
      { current_price := b1.close
        pivot_points := P
        open_interest_latest := (get_open_interest env).1.1
        open_interest_average := (get_open_interest env).1.2
        funding_rate := (get_funding_rate env).1
        mid_prices := tailN 10 (l1.map Bar.close)
        intraday_ema_20 := tailN 10 env.ema20_1m
        intraday_macd := tailN 10 env.macd_1m
        intraday_rsi_7 := tailN 10 env.rsi7_1m
        intraday_rsi_14 := tailN 10 env.rsi14_1m
        volume_average := listMean (tailN 20 (l4.map Bar.volume))
        macd_series_4h := tailN 10 env.macd_4h
        rsi_14_series_4h := tailN 10 env.rsi14_4h } := by
  simp only [get_complete_analysis, h1, h4, hd, hP, hb1, hb4]

/-- A run in which both candle series needed downstream are fine but the
daily fetch raises. -/
def envDailyFail : AnalysisEnv :=
  { ohlcv_1m := some [{ high := 101, low := 99, close := 100, volume := 5 }]
    ema20_1m := [100]
    macd_1m := [0]
    rsi7_1m := [50]
    rsi14_1m := [50]
    ohlcv_4h := some [{ high := 105, low := 95, close := 100, volume := 50 }]
    macd_4h := [0]
    rsi14_4h := [50]
    ohlcv_1d := none
    funding := some (1/1000)
    oi_history := some [10] }

/-- C3 counterexample: with the primary 1-minute series (and the 4h series)
retrieved, a raising daily fetch aborts the builder with an error — the
daily pivot source does not degrade to a fallback, contradicting the claim
that only a primary-series failure aborts. -/
theorem C3_daily_fetch_aborts_counterexample :
    envDailyFail.ohlcv_1m ≠ none ∧ envDailyFail.ohlcv_4h ≠ none ∧
    get_complete_analysis envDailyFail = Except.error BuildError.fetch1d := by
  refine ⟨by simp [envDailyFail], by simp [envDailyFail], ?_⟩
  rfl

/-- C3 amended: the derivatives queries degrade without aborting, but the
daily fetch is itself fatal — with the 1m and 4h series retrieved and
nonempty, the build succeeds exactly when the daily fetch does not raise
(however few bars it returns, and whatever the derivative outcomes), and a
raising daily fetch aborts the build. -/
theorem C3_build_failure_modes (env : AnalysisEnv) (l1 l4 : List Bar)
    (h1 : env.ohlcv_1m = some l1) (h1ne : l1 ≠ [])
    (h4 : env.ohlcv_4h = some l4) (h4ne : l4 ≠ []) :
    (env.ohlcv_1d = none → get_complete_analysis env = Except.error BuildError.fetch1d) ∧
    (∀ ld, env.ohlcv_1d = some ld → ∃ s, get_complete_analysis env = Except.ok s) := by
  constructor
  · intro hd
    simp only [get_complete_analysis, h1, h4, hd]
  · intro ld hd
    obtain ⟨b1, hb1⟩ := getLast_exists h1ne
    obtain ⟨b4, hb4⟩ := getLast_exists h4ne
    obtain ⟨P, hP⟩ := pivot_source_exists ld l4 h4ne
    exact ⟨_, get_complete_analysis_ok env l1 l4 ld b1 b4 P h1 hb1 h4 hb4 hd hP⟩

theorem C3_build_failure_modes_witness :
    envDailyFail.ohlcv_1m = some [{ high := 101, low := 99, close := 100, volume := 5 }] ∧
    (get_complete_analysis envDailyFail = Except.error BuildError.fetch1d) :=
  ⟨rfl,
    (C3_build_failure_modes envDailyFail
      [{ high := 101, low := 99, close := 100, volume := 5 }]
      [{ high := 105, low := 95, close := 100, volume := 50 }]
      rfl (by simp) rfl (by simp)).1 rfl⟩

/-- C4: a raising funding-rate or open-interest collaborator never escapes
the builder; each failing field independently defaults to `0.0` with a
warning, and snapshot construction still completes. -/
theorem C4_derivative_failure_defaults (env : AnalysisEnv) (l1 l4 ld : List Bar)
    (h1 : env.ohlcv_1m = some l1) (h1ne : l1 ≠ [])
    (h4 : env.ohlcv_4h = some l4) (h4ne : l4 ≠ [])
    (hd : env.ohlcv_1d = some ld) :
    (env.funding = none → get_funding_rate env = (0, true)) ∧
    (env.oi_history = none → get_open_interest env = ((0, 0), true)) ∧
    ∃ s, get_complete_analysis env = Except.ok s ∧
      (env.funding = none → s.funding_rate = 0) ∧
      (env.oi_history = none →
        s.open_interest_latest = 0 ∧ s.open_interest_average = 0) := by
  refine ⟨fun hf => by simp [get_funding_rate, hf],
    fun ho => by simp [get_open_interest, ho], ?_⟩
  obtain ⟨b1, hb1⟩ := getLast_exists h1ne
  obtain ⟨b4, hb4⟩ := getLast_exists h4ne
  obtain ⟨P, hP⟩ := pivot_source_exists ld l4 h4ne
  refine ⟨_, get_complete_analysis_ok env l1 l4 ld b1 b4 P h1 hb1 h4 hb4 hd hP, ?_, ?_⟩
  · intro hf
    simp [get_funding_rate, hf]
  · intro ho
    simp [get_open_interest, ho]

/-- A run in which both derivative collaborators raise. -/
def envDerivFail : AnalysisEnv :=
  { ohlcv_1m := some [{ high := 101, low := 99, close := 100, volume := 5 }]
    ema20_1m := [100]
    macd_1m := [0]
    rsi7_1m := [50]
    rsi14_1m := [50]
    ohlcv_4h := some [{ high := 105, low := 95, close := 100, volume := 50 }]
    macd_4h := [0]
    rsi14_4h := [50]
    ohlcv_1d := some [{ high := 110, low := 90, close := 100, volume := 500 },
                      { high := 108, low := 92, close := 101, volume := 400 }]
    funding := none
    oi_history := none }

theorem C4_derivative_failure_defaults_witness :
    get_funding_rate envDerivFail = (0, true) ∧
    get_open_interest envDerivFail = ((0, 0), true) ∧
    ∃ s, get_complete_analysis envDerivFail = Except.ok s ∧
      (envDerivFail.funding = none → s.funding_rate = 0) ∧
      (envDerivFail.oi_history = none →
        s.open_interest_latest = 0 ∧ s.open_interest_average = 0) := by
  obtain ⟨hf, ho, hs⟩ := C4_derivative_failure_defaults envDerivFail _ _ _
    rfl (by simp) rfl (by simp) rfl
  exact ⟨hf rfl, ho rfl, hs⟩

/-- C6: with a successful daily fetch returning at least two bars, all five
pivot levels come from the (high, low, close) of the second-to-last daily
bar; with fewer than two daily bars the levels come from the latest 4h bar,
and the build still succeeds. -/
theorem C6_pivot_source_selection (env : AnalysisEnv) (l1 l4 ld : List Bar)
    (h1 : env.ohlcv_1m = some l1) (h1ne : l1 ≠ [])
    (h4 : env.ohlcv_4h = some l4) (h4ne : l4 ≠ [])
    (hd : env.ohlcv_1d = some ld) :
    ∃ s, get_complete_analysis env = Except.ok s ∧
      (∀ b, 2 ≤ ld.length → ld[ld.length - 2]? = some b →
        s.pivot_points = calculate_pivot_points b.high b.low b.close) ∧
      (∀ b, ld.length < 2 → l4.getLast? = some b →
        s.pivot_points = calculate_pivot_points b.high b.low b.close) := by
  obtain ⟨b1, hb1⟩ := getLast_exists h1ne
  obtain ⟨b4, hb4⟩ := getLast_exists h4ne
  obtain ⟨P, hP⟩ := pivot_source_exists ld l4 h4ne
  refine ⟨_, get_complete_analysis_ok env l1 l4 ld b1 b4 P h1 hb1 h4 hb4 hd hP, ?_, ?_⟩
  · intro b h2 hb
    have := pivot_source_of_two ld l4 h2 b hb
    rw [this] at hP
    simpa using hP.symm
  · intro b h2 hb
    have := pivot_source_of_lt_two ld l4 h2 b hb
    rw [this] at hP
    simpa using hP.symm

/-- A run with two daily bars, for the prior-day pivot selection. -/
def envTwoDaily : AnalysisEnv := envDerivFail

theorem C6_pivot_source_selection_witness :
    ∃ s, get_complete_analysis envTwoDaily = Except.ok s ∧
      s.pivot_points = calculate_pivot_points 110 90 100 := by
  obtain ⟨s, hs, htwo, _⟩ := C6_pivot_source_selection envTwoDaily _ _ _
    rfl (by simp) rfl (by simp) rfl
  exact ⟨s, hs, htwo { high := 110, low := 90, close := 100, volume := 500 } (by simp) rfl⟩

/-- C9: every reported series of the snapshot — the five intraday columns
and the two longer-term trailing columns — is the `tail(10)` of its
aligned source column: it has length `min 10 (aligned rows)` and is a
suffix of the source column, so the oldest→latest source order is
preserved unchanged. -/
theorem C9_series_tail (env : AnalysisEnv) (l1 l4 ld : List Bar)
    (h1 : env.ohlcv_1m = some l1) (h1ne : l1 ≠ [])
    (h4 : env.ohlcv_4h = some l4) (h4ne : l4 ≠ [])
    (hd : env.ohlcv_1d = some ld)
    (he : env.ema20_1m.length = l1.length)
    (hm : env.macd_1m.length = l1.length)
    (h7 : env.rsi7_1m.length = l1.length)
    (h14 : env.rsi14_1m.length = l1.length)
    (hm4 : env.macd_4h.length = l4.length)
    (h144 : env.rsi14_4h.length = l4.length) :
    ∃ s, get_complete_analysis env = Except.ok s ∧
      (s.mid_prices.length = min 10 l1.length ∧ s.mid_prices <:+ l1.map Bar.close) ∧
      (s.intraday_ema_20.length = min 10 l1.length ∧ s.intraday_ema_20 <:+ env.ema20_1m) ∧
      (s.intraday_macd.length = min 10 l1.length ∧ s.intraday_macd <:+ env.macd_1m) ∧
      (s.intraday_rsi_7.length = min 10 l1.length ∧ s.intraday_rsi_7 <:+ env.rsi7_1m) ∧
      (s.intraday_rsi_14.length = min 10 l1.length ∧ s.intraday_rsi_14 <:+ env.rsi14_1m) ∧
      (s.macd_series_4h.length = min 10 l4.length ∧ s.macd_series_4h <:+ env.macd_4h) ∧
      (s.rsi_14_series_4h.length = min 10 l4.length ∧
        s.rsi_14_series_4h <:+ env.rsi14_4h) := by
  obtain ⟨b1, hb1⟩ := getLast_exists h1ne
  obtain ⟨b4, hb4⟩ := getLast_exists h4ne
  obtain ⟨P, hP⟩ := pivot_source_exists ld l4 h4ne
  refine ⟨_, get_complete_analysis_ok env l1 l4 ld b1 b4 P h1 hb1 h4 hb4 hd hP,
    ?_, ?_, ?_, ?_, ?_, ?_, ?_⟩ <;>
    simp [tailN_length, tailN_suffix, he, hm, h7, h14, hm4, h144]

theorem C9_series_tail_witness :
    ∃ s, get_complete_analysis envDerivFail = Except.ok s ∧
      s.mid_prices.length = min 10 1 ∧ s.mid_prices <:+ [(100:ℚ)] := by
  obtain ⟨s, hs, hmid, _⟩ := C9_series_tail envDerivFail
    [{ high := 101, low := 99, close := 100, volume := 5 }]
    [{ high := 105, low := 95, close := 100, volume := 50 }]
    [{ high := 110, low := 90, close := 100, volume := 500 },
     { high := 108, low := 92, close := 101, volume := 400 }]
    rfl (by simp) rfl (by simp) rfl rfl rfl rfl rfl rfl rfl
  exact ⟨s, hs, by simpa using hmid.1, by simpa using hmid.2⟩

/-- The whitespace characters removed by Python `str.strip()`. -/
def isWS (c : Char) : Bool :=
  c == ' ' || c == '\t' || c == '\n' || c == '\r' || c == '\x0b' || c == '\x0c'

/-- Leading-whitespace removal (`str.lstrip()`). -/
def stripL (s : List Char) : List Char := s.dropWhile isWS

/-- Trailing-whitespace removal (`str.rstrip()`). -/
def stripR (s : List Char) : List Char := (s.reverse.dropWhile isWS).reverse

/-- Python `str.strip()` over a list of characters. -/
def strip (s : List Char) : List Char := stripR (stripL s)

/-- The backtick character. -/
def btick : Char := Char.ofNat 96

/-- The three-character markdown code-fence delimiter. -/
def fence : List Char := [btick, btick, btick]

/-- The code-fence delimiter with the `json` language flag. -/
def fenceJson : List Char := fence ++ ['j', 's', 'o', 'n']

theorem stripL_cons_of_neg {c : Char} (h : isWS c = false) (s : List Char) :
    stripL (c :: s) = c :: s := by
  simp [stripL, List.dropWhile_cons_of_neg, h]

theorem stripR_append_of_neg {c : Char} (h : isWS c = false) (s : List Char) :
    stripR (s ++ [c]) = s ++ [c] := by
  simp [stripR, List.dropWhile_cons_of_neg, h]

theorem stripR_append_ws {c : Char} (h : isWS c = true) (s : List Char) :
    stripR (s ++ [c]) = stripR s := by
  simp [stripR, List.dropWhile_cons_of_pos, h]

theorem strip_cons_ws {c : Char} (h : isWS c = true) (s : List Char) :
    strip (c :: s) = strip s := by
  simp [strip, stripL, List.dropWhile_cons_of_pos, h]

theorem strip_append_ws {c : Char} (h : isWS c = true) (t : List Char) :
    strip (t ++ [c]) = strip t := by
  have hsplit : stripL (t ++ [c]) =
      if (stripL t).isEmpty then stripL [c] else stripL t ++ [c] := by
    simp only [stripL]
    exact List.dropWhile_append
  have hc : stripL [c] = [] := by
    simp [stripL, List.dropWhile_cons_of_pos, h]
  by_cases he : (stripL t).isEmpty = true
  · have ht : stripL t = [] := by simpa using he
    rw [strip, strip, hsplit, if_pos he, hc, ht]
  · rw [strip, strip, hsplit, if_neg he, stripR_append_ws h]

theorem strip_of_ends (a b : Char) (ha : isWS a = false) (hb : isWS b = false)
    (s : List Char) :
    strip (a :: (s ++ [b])) = a :: (s ++ [b]) := by
  rw [strip, stripL_cons_of_neg ha]
  exact stripR_append_of_neg hb (a :: s)

theorem stripR_idem (s : List Char) : stripR (stripR s) = stripR s := by
  simp [stripR, List.dropWhile_idempotent]

theorem stripL_head_not_ws (u : List Char) (hu : stripL u = u) (a : Char) (v : List Char)
    (huv : u = a :: v) : isWS a = false := by
  cases hws : isWS a
  · rfl
  · exfalso
    have h1 : stripL u = stripL v := by
      rw [huv, stripL, stripL, List.dropWhile_cons_of_pos hws]
    rw [hu, huv] at h1
    have h2 : (stripL v).length ≤ v.length :=
      (List.dropWhile_suffix isWS).sublist.length_le
    have h3 : (a :: v).length = (stripL v).length := by rw [h1]
    simp at h3
    omega

theorem stripL_stripR (u : List Char) (hu : stripL u = u) :
    stripL (stripR u) = stripR u := by
  cases hr : stripR u with
  | nil => rfl
  | cons a v =>
      have hpre : stripR u <+: u := by
        have h1 : List.dropWhile isWS u.reverse <:+ u.reverse := List.dropWhile_suffix _
        have h2 := List.reverse_prefix.mpr h1
        simpa [stripR] using h2
      rw [hr] at hpre
      obtain ⟨z, hz⟩ := hpre
      have ha : isWS a = false :=
        stripL_head_not_ws u hu a (v ++ z) (by rw [← hz]; simp)
      exact stripL_cons_of_neg ha v

theorem strip_idem (s : List Char) : strip (strip s) = strip s := by
  have hu : stripL (stripL s) = stripL s := by
    simp only [stripL]
    exact List.dropWhile_idempotent _ _
  rw [strip, strip, stripL_stripR (stripL s) hu, stripR_idem]

/-- First fence check of the requester: drop a leading "```json"
(7 characters). -/
def dropJsonFence (s : List Char) : List Char :=
  if fenceJson.isPrefixOf s then s.drop 7 else s

/-- Second fence check: drop a leading "```" (3 characters). -/
def dropOpenFence (s : List Char) : List Char :=
  if fence.isPrefixOf s then s.drop 3 else s

/-- Third fence check: drop a trailing "```" (Python `s[:-3]`). -/
def dropCloseFence (s : List Char) : List Char :=
  if fence.isSuffixOf s then s.take (s.length - 3) else s

/-- The markdown-fence stripping of `previsione_trading_agent`
(`trading_agent.py` lines 124-132 and 187-194): strip the response text,
drop a leading json-flagged or bare fence, drop a trailing fence, and
strip again (the final strip is the `response_text.strip()` inside the
`json.loads` call). -/
def strip_code_fences (s : List Char) : List Char :=
  strip (dropCloseFence (dropOpenFence (dropJsonFence (strip s))))

/-- A response wrapped in a json-flagged code fence, newline-separated. -/
def wrapJson (t : List Char) : List Char := fenceJson ++ '\n' :: t ++ '\n' :: fence

/-- A response wrapped in a bare code fence, newline-separated. -/
def wrapBare (t : List Char) : List Char := fence ++ '\n' :: t ++ '\n' :: fence

theorem strip_wrapJson (t : List Char) : strip (wrapJson t) = wrapJson t := by
  have h : wrapJson t = btick ::
      ((btick :: btick :: 'j' :: 's' :: 'o' :: 'n' :: '\n' :: t ++ ['\n', btick, btick])
        ++ [btick]) := by
    simp [wrapJson, fenceJson, fence]
  rw [h]
  exact strip_of_ends btick btick (by decide) (by decide) _

theorem strip_wrapBare (t : List Char) : strip (wrapBare t) = wrapBare t := by
  have h : wrapBare t = btick ::
      ((btick :: btick :: '\n' :: t ++ ['\n', btick, btick]) ++ [btick]) := by
    simp [wrapBare, fence]
  rw [h]
  exact strip_of_ends btick btick (by decide) (by decide) _

theorem dropJsonFence_wrapJson (t : List Char) :
    dropJsonFence (wrapJson t) = '\n' :: (t ++ '\n' :: fence) := by
  have hp : fenceJson.isPrefixOf (wrapJson t) = true := by
    rw [List.isPrefixOf_iff_prefix]
    exact ⟨_, rfl⟩
  rw [dropJsonFence, if_pos hp]
  show (fenceJson ++ ('\n' :: (t ++ '\n' :: fence))).drop 7 = _
  rw [show (7:Nat) = fenceJson.length from rfl, List.drop_left]

theorem fence_not_prefix_newline (z : List Char) :
    fence.isPrefixOf ('\n' :: z) = false := by
  have hb : (btick == '\n') = false := by decide
  simp [fence, List.isPrefixOf, hb]

theorem dropJsonFence_wrapBare (t : List Char) :
    dropJsonFence (wrapBare t) = wrapBare t := by
  have hb : (btick == btick) = true := by decide
  have hj : (('j' : Char) == '\n') = false := by decide
  have hp : fenceJson.isPrefixOf (wrapBare t) = false := by
    simp [fenceJson, fence, wrapBare, List.isPrefixOf, hb, hj]
  rw [dropJsonFence, if_neg (by simp [hp])]

theorem dropOpenFence_newline (z : List Char) :
    dropOpenFence ('\n' :: z) = '\n' :: z := by
  rw [dropOpenFence, if_neg (by simp [fence_not_prefix_newline])]

theorem dropOpenFence_wrapBare (t : List Char) :
    dropOpenFence (wrapBare t) = '\n' :: (t ++ '\n' :: fence) := by
  have hp : fence.isPrefixOf (wrapBare t) = true := by
    rw [List.isPrefixOf_iff_prefix]
    exact ⟨_, rfl⟩
  rw [dropOpenFence, if_pos hp]
  show (fence ++ ('\n' :: (t ++ '\n' :: fence))).drop 3 = _
  rw [show (3:Nat) = fence.length from rfl, List.drop_left]

theorem dropCloseFence_wrapped (t : List Char) :
    dropCloseFence ('\n' :: (t ++ '\n' :: fence)) = '\n' :: (t ++ ['\n']) := by
  have heq : '\n' :: (t ++ '\n' :: fence) = ('\n' :: (t ++ ['\n'])) ++ fence := by
    simp
  rw [dropCloseFence, heq]
  have hsuf : fence.isSuffixOf (('\n' :: (t ++ ['\n'])) ++ fence) = true := by
    rw [List.isSuffixOf_iff_suffix]
    exact ⟨_, rfl⟩
  rw [if_pos hsuf]
  have hlen : (('\n' :: (t ++ ['\n'])) ++ fence).length - 3 = ('\n' :: (t ++ ['\n'])).length := by
    simp [fence]
  rw [hlen, List.take_left]

theorem strip_newline_ends (t : List Char) :
    strip ('\n' :: (t ++ ['\n'])) = strip t := by
  rw [strip_cons_ws (by decide), strip_append_ws (by decide)]

/-- C8: for any response text whose stripped form does not itself start or
end with a fence delimiter (true of any JSON object text), the requester's
fence-stripping step yields the same text whether the provider wrapped it
in a ```json fence, a bare ``` fence, or no fence at all — so the
subsequent `json.loads` parses the identical string in all three cases. -/
theorem C8_fence_stripping (t : List Char)
    (hp : fence.isPrefixOf (strip t) = false)
    (hs : fence.isSuffixOf (strip t) = false) :
    strip_code_fences (wrapJson t) = strip t ∧
    strip_code_fences (wrapBare t) = strip t ∧
    strip_code_fences t = strip t := by
  refine ⟨?_, ?_, ?_⟩
  · rw [strip_code_fences, strip_wrapJson, dropJsonFence_wrapJson, dropOpenFence_newline,
      dropCloseFence_wrapped, strip_newline_ends]
  · rw [strip_code_fences, strip_wrapBare, dropJsonFence_wrapBare, dropOpenFence_wrapBare,
      dropCloseFence_wrapped, strip_newline_ends]
  · have hpj : fenceJson.isPrefixOf (strip t) = false := by
      cases hcase : fenceJson.isPrefixOf (strip t)
      · rfl
      · exfalso
        have h1 : fenceJson <+: strip t := List.isPrefixOf_iff_prefix.mp hcase
        have h0 : fence <+: fenceJson := ⟨['j', 's', 'o', 'n'], rfl⟩
        have h2 : fence <+: strip t := h0.trans h1
        rw [← List.isPrefixOf_iff_prefix] at h2
        simp [hp] at h2
    rw [strip_code_fences, dropJsonFence, if_neg (by simp [hpj]), dropOpenFence,
      if_neg (by simp [hp]), dropCloseFence, if_neg (by simp [hs]), strip_idem]

/-- A minimal JSON object text. -/
def tJson : List Char := ['\x7b', '\x7d']

theorem C8_fence_stripping_witness :
    fence.isPrefixOf (strip tJson) = false ∧ fence.isSuffixOf (strip tJson) = false ∧
    (strip_code_fences (wrapJson tJson) = strip tJson ∧
     strip_code_fences (wrapBare tJson) = strip tJson ∧
     strip_code_fences tJson = strip tJson) :=
  ⟨by decide, by decide, C8_fence_stripping tJson (by decide) (by decide)⟩

/-- The outcome of one provider attempt, classified the way the
`except (AttributeError, TypeError)` clause in `previsione_trading_agent`
classifies exceptions.  `ok r` means the call returned and its text parsed
into `r`; `attrType` is an `AttributeError` or `TypeError` (e.g. the
Responses API missing on the installed client); `failed e` is any other
exception — a timeout, a transport error, or a `json.loads` failure
(`ValueError`), none of which that clause catches. -/
inductive AttemptResult
  | ok (r : RawResp)
  | attrType
  | failed (e : String)
deriving DecidableEq, Repr

/-- The outcomes of the two provider calls the non-Perplexity path of
`previsione_trading_agent` can make: the structured Responses API attempt
and the Chat Completions fallback attempt. -/
structure ProviderEnv where
  primary : AttemptResult
  secondary : AttemptResult
deriving DecidableEq, Repr

/-- The exceptions that escape `previsione_trading_agent`. -/
inductive AgentError
  | invalid (e : SanitizeError)
  | attrTypeFailure
  | providerFailed (e : String)
deriving DecidableEq, Repr

/-- The non-Perplexity path of `previsione_trading_agent`
(`trading_agent.py` lines 134-195): try the structured Responses API call
and sanitize its parsed result; on `AttributeError`/`TypeError` only, make
exactly one Chat Completions fallback call and sanitize that instead; let
every other exception propagate.  The second component counts fallback
attempts made. -/
def previsione_trading_agent (env : ProviderEnv) : Except AgentError RawResp × Nat :=
  match env.primary with
  | AttemptResult.ok r =>
      (match (sanitize_response r).2 with
       | Except.ok d => Except.ok d
       | Except.error e => Except.error (AgentError.invalid e), 0)
  | AttemptResult.failed e => (Except.error (AgentError.providerFailed e), 0)
  | AttemptResult.attrType =>
      match env.secondary with
      | AttemptResult.ok r =>
          (match (sanitize_response r).2 with
           | Except.ok d => Except.ok d
           | Except.error e => Except.error (AgentError.invalid e), 1)
      | AttemptResult.attrType => (Except.error AgentError.attrTypeFailure, 1)
      | AttemptResult.failed e => (Except.error (AgentError.providerFailed e), 1)

/-- C7: on the non-Perplexity path, an attribute/type mismatch of the
structured-output attempt triggers exactly one chat-completion fallback
attempt, and the call then fails only if that attempt also fails; a
primary failure of any other kind (e.g. a timeout) propagates with no
fallback attempt made. -/
theorem C7_provider_fallback (env : ProviderEnv) :
    (∀ e, env.primary = AttemptResult.failed e →
      previsione_trading_agent env = (Except.error (AgentError.providerFailed e), 0)) ∧
    (env.primary = AttemptResult.attrType →
      (previsione_trading_agent env).2 = 1 ∧
      (∀ r d, env.secondary = AttemptResult.ok r → (sanitize_response r).2 = Except.ok d →
        (previsione_trading_agent env).1 = Except.ok d) ∧
      (∀ e, env.secondary = AttemptResult.failed e →
        (previsione_trading_agent env).1 = Except.error (AgentError.providerFailed e)) ∧
      (env.secondary = AttemptResult.attrType →
        (previsione_trading_agent env).1 = Except.error AgentError.attrTypeFailure)) := by
  constructor
  · intro e he
    simp [previsione_trading_agent, he]
  · intro hp
    refine ⟨?_, ?_, ?_, ?_⟩
    · rcases hsec : env.secondary with r | _ | e <;>
        simp [previsione_trading_agent, hp, hsec]
    · intro r d hsec hsan
      simp [previsione_trading_agent, hp, hsec, hsan]
    · intro e hsec
      simp [previsione_trading_agent, hp, hsec]
    · intro hsec
      simp [previsione_trading_agent, hp, hsec]

/-- A run whose primary attempt hits an `AttributeError`/`TypeError` and
whose fallback succeeds with the spec's `open` example response. -/
def envFallback : ProviderEnv :=
  { primary := AttemptResult.attrType
    secondary := AttemptResult.ok rawOpenEx }

theorem C7_provider_fallback_witness :
    (previsione_trading_agent envFallback).2 = 1 ∧
    (previsione_trading_agent envFallback).1 =
      Except.ok { rawOpenEx with direction := some (some "long") } := by
  have h := (C7_provider_fallback envFallback).2 rfl
  refine ⟨h.1, h.2.1 rawOpenEx _ rfl ?_⟩
  rfl
